import Mathlib

/-!
Verification of the LearnTrack course-tracking core.

The Python source is shallowly embedded:
* `datetime` values become `Int` seconds since an epoch (naive datetimes);
  `timedelta.days` is floored division by 86400, which Python implements as
  floor division, hence `Int.fdiv`.
* fallible code (attribute access on `None`) becomes `Option`-returning
  functions, with `none` marking the point where Python would raise.
* dictionaries built by comprehension become association-list lookups in
  which a later binding for the same key overwrites an earlier one.
-/

namespace LearnTrack

/-- A naive `datetime`, measured in whole seconds since an epoch. -/
abbrev DateTime := Int

/-- The `EnrollmentStatus` enum from `models/course_models.py`. -/
inductive EnrollmentStatus where
  | ENROLLED
  | IN_PROGRESS
  | COMPLETED
deriving DecidableEq, Repr

/-- The `ScheduleStatus` enum from `models/course_models.py`. -/
inductive ScheduleStatus where
  | STARTED
  | NEEDS_REMINDER
  | PROGRESSED
  | COMPLETED
deriving DecidableEq, Repr

/-- The `CourseEnrollment` dataclass. -/
structure CourseEnrollment where
  course_id : String
  status : EnrollmentStatus
  enrollment_date : DateTime
  start_date : Option DateTime := none
  completion_date : Option DateTime := none
deriving DecidableEq, Repr

/-- Source method `CourseEnrollment.is_completed`: checks the lifecycle tag, not the
completion timestamp. -/
def CourseEnrollment.is_completed (e : CourseEnrollment) : Bool :=
  e.status = EnrollmentStatus.COMPLETED

/-- Source method `CourseEnrollment.is_started`: the start timestamp is present. -/
def CourseEnrollment.is_started (e : CourseEnrollment) : Bool :=
  e.start_date.isSome

/-- Source method `CourseEnrollment.days_since_enrollment`: Python
`(current_date - enrollment_date).days`, i.e. floor of the difference in
seconds divided by 86400. -/
def CourseEnrollment.days_since_enrollment (e : CourseEnrollment)
    (current_date : DateTime) : Int :=
  Int.fdiv (current_date - e.enrollment_date) 86400

/-- The `CourseSchedule` dataclass. -/
structure CourseSchedule where
  course_id : String
  days_to_complete : Int
  batch : Int
deriving DecidableEq, Repr

/-- The `CourseScheduleStatus` dataclass: the classified status produced by the
Evaluator. -/
structure CourseScheduleStatus where
  course_id : String
  status : ScheduleStatus
  enrollment : Option CourseEnrollment
  schedule : CourseSchedule
  days_overdue : Int := 0
  message : String := ""
deriving DecidableEq, Repr

/-- Source method `CourseScheduleStatus.needs_reminder`. -/
def CourseScheduleStatus.needs_reminder (s : CourseScheduleStatus) : Bool :=
  s.status = ScheduleStatus.NEEDS_REMINDER

/-- The `User` dataclass. -/
structure User where
  user_id : String
  name : String
  email : String
  manager_email : String
  hire_date : DateTime
deriving DecidableEq, Repr

/-- Zero-pad a day or month number to two digits, as `%m`/`%d` do. -/
def pad2 (n : Int) : String :=
  if n < 10 then "0" ++ toString n else toString n

/-- Zero-pad a year to four digits, as `%Y` does for common-era years. -/
def pad4 (n : Int) : String :=
  if n < 10 then "000" ++ toString n
  else if n < 100 then "00" ++ toString n
  else if n < 1000 then "0" ++ toString n
  else toString n

/-- Convert a count of days since 1970-01-01 to a Gregorian calendar date
(year, month, day), the standard civil-from-days computation. -/
def civilFromDays (z0 : Int) : Int × Int × Int :=
  let z := z0 + 719468
  let era := Int.fdiv z 146097
  let doe := z - era * 146097
  let yoe := Int.fdiv (doe - Int.fdiv doe 1460 + Int.fdiv doe 36524 - Int.fdiv doe 146096) 365
  let y := yoe + era * 400
  let doy := doe - (365 * yoe + Int.fdiv yoe 4 - Int.fdiv yoe 100)
  let mp := Int.fdiv (5 * doy + 2) 153
  let day := doy - Int.fdiv (153 * mp + 2) 5 + 1
  let m := mp + (if mp < 10 then 3 else -9)
  (y + (if m ≤ 2 then 1 else 0), m, day)

/-- Python strftime with format %Y-%m-%d on a naive datetime in seconds. -/
def strftime_ymd (t : DateTime) : String :=
  let c := civilFromDays (Int.fdiv t 86400)
  pad4 c.1 ++ "-" ++ pad2 c.2.1 ++ "-" ++ pad2 c.2.2

/-- Source method `ScheduleStatusService.calculate_status` from
`services/status_service.py`.  Returns `none` exactly where Python raises:
the Completed branch formats `enrollment.completion_date` with `strftime`,
which fails when the completion timestamp is `None`. -/
def calculate_status (enrollment : CourseEnrollment)
    (schedule : CourseSchedule) (current_date : DateTime) :
    Option CourseScheduleStatus :=
  let days_since_enrollment := enrollment.days_since_enrollment current_date
  let days_overdue := max 0 (days_since_enrollment - schedule.days_to_complete)
  -- Case 1: course is completed
  if enrollment.is_completed then
    match enrollment.completion_date with
    | none => none
    | some cd =>
      some { course_id := enrollment.course_id
             status := ScheduleStatus.COMPLETED
             enrollment := some enrollment
             schedule := schedule
             days_overdue := 0
             message := "Completed on " ++ strftime_ymd cd }
  -- Case 2: course is overdue (needs reminder)
  else if days_since_enrollment > schedule.days_to_complete then
    let status_detail :=
      if !enrollment.is_started then "Not started" else "In progress but overdue"
    some { course_id := enrollment.course_id
           status := ScheduleStatus.NEEDS_REMINDER
           enrollment := some enrollment
           schedule := schedule
           days_overdue := days_overdue
           message := status_detail ++ " - " ++ toString days_overdue ++ " days overdue" }
  -- Case 3: course is in progress and within deadline
  else if enrollment.status = EnrollmentStatus.IN_PROGRESS then
    let days_remaining := schedule.days_to_complete - days_since_enrollment
    some { course_id := enrollment.course_id
           status := ScheduleStatus.PROGRESSED
           enrollment := some enrollment
           schedule := schedule
           days_overdue := 0
           message := "In progress - " ++ toString days_remaining ++ " days remaining" }
  -- Case 4: started but not yet marked In Progress
  else if enrollment.is_started then
    let days_remaining := schedule.days_to_complete - days_since_enrollment
    some { course_id := enrollment.course_id
           status := ScheduleStatus.STARTED
           enrollment := some enrollment
           schedule := schedule
           days_overdue := 0
           message := "Started - " ++ toString days_remaining ++ " days remaining" }
  -- Case 5: enrolled but not started, within deadline
  else
    let days_remaining := schedule.days_to_complete - days_since_enrollment
    some { course_id := enrollment.course_id
           status := ScheduleStatus.STARTED
           enrollment := some enrollment
           schedule := schedule
           days_overdue := 0
           message := "Enrolled - " ++ toString days_remaining ++ " days to start and complete" }

/-- The schedule dictionary built by `ScheduleStatusService.__init__` as
`{schedule.course_id: schedule for schedule in schedules}`.  A Python dict
comprehension lets a later entry with the same key overwrite an earlier
one, hence the `foldl` keeps the last match. -/
def schedules_map_get (schedules : List CourseSchedule) (cid : String) :
    Option CourseSchedule :=
  schedules.foldl (fun acc s => if s.course_id = cid then some s else acc) none

/-- Source method `ScheduleStatusService.calculate_user_status`: loops over the
enrollments, silently skipping those whose course id has no schedule, and
appends each classification in input order.  An exception inside
`calculate_status` propagates, aborting the whole call (`none`). -/
def calculate_user_status (schedules : List CourseSchedule)
    (enrollments : List CourseEnrollment) (current_date : DateTime) :
    Option (List CourseScheduleStatus) :=
  match enrollments with
  | [] => some []
  | e :: rest =>
    match schedules_map_get schedules e.course_id with
    | none => calculate_user_status schedules rest current_date
    | some schedule =>
      match calculate_status e schedule current_date with
      | none => none
      | some st =>
        (calculate_user_status schedules rest current_date).map (st :: ·)

/-- Source method `ScheduleStatusService.get_courses_needing_reminder`. -/
def get_courses_needing_reminder (schedules : List CourseSchedule)
    (enrollments : List CourseEnrollment) (current_date : DateTime) :
    Option (List CourseScheduleStatus) :=
  (calculate_user_status schedules enrollments current_date).map
    (fun all_statuses => all_statuses.filter (·.needs_reminder))

/-- The summary dictionary produced by
`ScheduleStatusService.get_user_summary`. -/
structure UserSummary where
  total_courses : Nat
  completed : Nat
  in_progress : Nat
  needs_reminder : Nat
  on_track : Nat
deriving DecidableEq, Repr

/-- One iteration of the counting loop in `get_user_summary`. -/
def summary_step (acc : UserSummary) (st : CourseScheduleStatus) : UserSummary :=
  if st.status = ScheduleStatus.COMPLETED then
    { acc with completed := acc.completed + 1 }
  else if st.status = ScheduleStatus.NEEDS_REMINDER then
    { acc with needs_reminder := acc.needs_reminder + 1 }
  else if st.status = ScheduleStatus.PROGRESSED ∨ st.status = ScheduleStatus.STARTED then
    let acc' := { acc with in_progress := acc.in_progress + 1 }
    if st.days_overdue = 0 then { acc' with on_track := acc'.on_track + 1 } else acc'
  else acc

/-- Source method `ScheduleStatusService.get_user_summary`. -/
def get_user_summary (schedules : List CourseSchedule)
    (enrollments : List CourseEnrollment) (current_date : DateTime) :
    Option UserSummary :=
  (calculate_user_status schedules enrollments current_date).map
    (fun all_statuses =>
      all_statuses.foldl summary_step
        { total_courses := all_statuses.length
          completed := 0
          in_progress := 0
          needs_reminder := 0
          on_track := 0 })

/-! ### Email templates (`services/email_templates.py`) -/

/-- One constructor per concrete `EmailTemplate` subclass. -/
inductive EmailTemplateKind where
  | needsReminderTemplate
  | progressedTemplate
  | startedTemplate
  | completedTemplate
deriving DecidableEq, Repr

/-- An instantiated template: the class picked by the factory together with
the user handed to its constructor. -/
structure EmailTemplate where
  kind : EmailTemplateKind
  user : User
deriving DecidableEq, Repr

/-- A runtime value passed as the `status` argument of
`EmailTemplateFactory.get_template`.  Python does not enforce the type
annotation, so a value that is not one of the four `ScheduleStatus` members
can reach the dictionary lookup; `other` stands for any such value. -/
inductive StatusArg where
  | tag (s : ScheduleStatus)
  | other (repr_str : String)
deriving DecidableEq, Repr

/-- The `template_map` dictionary literal in `get_template`. -/
def template_map : List (StatusArg × EmailTemplateKind) :=
  [ (StatusArg.tag ScheduleStatus.NEEDS_REMINDER, EmailTemplateKind.needsReminderTemplate),
    (StatusArg.tag ScheduleStatus.PROGRESSED,     EmailTemplateKind.progressedTemplate),
    (StatusArg.tag ScheduleStatus.STARTED,        EmailTemplateKind.startedTemplate),
    (StatusArg.tag ScheduleStatus.COMPLETED,      EmailTemplateKind.completedTemplate) ]

/-- Source method `EmailTemplateFactory.get_template`:
`template_map.get(status, NeedsReminderTemplate)` followed by
`template_class(user)`. -/
def get_template (status : StatusArg) (user : User) : EmailTemplate :=
  { kind := (((template_map.find? (fun p => p.1 = status)).map Prod.snd).getD
      EmailTemplateKind.needsReminderTemplate)
    user := user }

/-! ### Email log persistence (`services/email_service.py`) -/

/-- One entry of the email log. -/
structure EmailRecord where
  timestamp : DateTime
  to_addr : String
  sender : String
  subject : String
  body : String
  record_type : String
deriving DecidableEq, Repr

/-- Source method `EmailService.save_email_log`: read the durable log (`none` models a
missing or malformed file, which the source replaces with `[]`), extend it
with the emails sent during this run, and write the result back.  The
return value is the new file contents. -/
def save_email_log (existing_file : Option (List EmailRecord))
    (sent_emails : List EmailRecord) : List EmailRecord :=
  let existing_logs := existing_file.getD []
  existing_logs ++ sent_emails

/-! ### Daily reminder job (`jobs/daily_reminder_job.py`) -/

/-- Source expression `self.enrollments_by_user.get(user.user_id, [])`: dict lookup with an
empty default, last binding wins as in a Python dict. -/
def enrollments_by_user_get (by_user : List (String × List CourseEnrollment))
    (uid : String) : List CourseEnrollment :=
  (by_user.foldl (fun acc p => if p.1 = uid then some p.2 else acc) none).getD []

/-- One row of a manager summary, as built in `process_reminders`. -/
structure ManagerSummaryRow where
  user_name : String
  user_email : String
  completed_count : Nat
  in_progress_count : Nat
  needs_reminder_count : Nat
  total_courses : Nat
deriving DecidableEq, Repr

/-- Source expression `manager_summaries[user.manager_email].append(row)` on a
`defaultdict(list)`: insertion-ordered map from manager email to rows. -/
def append_manager_summary (groups : List (String × List ManagerSummaryRow))
    (key : String) (row : ManagerSummaryRow) :
    List (String × List ManagerSummaryRow) :=
  if groups.any (fun p => p.1 = key) then
    groups.map (fun p => if p.1 = key then (p.1, p.2 ++ [row]) else p)
  else
    groups ++ [(key, [row])]

/-- The statistics dictionary returned by
`DailyReminderJob.process_reminders`. -/
structure JobStats where
  execution_date : DateTime
  users_processed : Nat
  users_needing_reminders : Nat
  reminder_emails_sent : Nat
  manager_summaries_sent : Nat
  total_emails_sent : Nat
deriving DecidableEq, Repr

/-- The per-user loop of `DailyReminderJob.process_reminders`.  The loop
body has no try/except: an exception raised while classifying the
enrollments (modelled by `none` from `calculate_user_status` or
`get_user_summary`) propagates immediately, so the remaining users are
never processed. -/
def process_users_loop (schedules : List CourseSchedule)
    (by_user : List (String × List CourseEnrollment)) (current_date : DateTime)
    (users : List User)
    (needing : List (User × List CourseScheduleStatus))
    (summaries : List (String × List ManagerSummaryRow)) :
    Option (List (User × List CourseScheduleStatus) ×
            List (String × List ManagerSummaryRow)) :=
  match users with
  | [] => some (needing, summaries)
  | user :: rest =>
    let enrollments := enrollments_by_user_get by_user user.user_id
    if enrollments.isEmpty then
      process_users_loop schedules by_user current_date rest needing summaries
    else
      match calculate_user_status schedules enrollments current_date with
      | none => none
      | some statuses =>
        let needs_reminder :=
          statuses.filter (fun s => s.status = ScheduleStatus.NEEDS_REMINDER)
        let needing' :=
          if needs_reminder.isEmpty then needing else needing ++ [(user, needs_reminder)]
        match get_user_summary schedules enrollments current_date with
        | none => none
        | some summary =>
          let row : ManagerSummaryRow :=
            { user_name := user.name
              user_email := user.email
              completed_count := summary.completed
              in_progress_count := summary.in_progress
              needs_reminder_count := summary.needs_reminder
              total_courses := summary.total_courses }
          process_users_loop schedules by_user current_date rest needing'
            (append_manager_summary summaries user.manager_email row)

/-- Source method `DailyReminderJob.process_reminders`: classify every user, send one
reminder email per user with a non-empty needs-reminder subset and one
summary per manager, and return the statistics dictionary.  `none` models
the run aborting because a per-user classification raised. -/
def process_reminders (users : List User)
    (by_user : List (String × List CourseEnrollment))
    (schedules : List CourseSchedule) (current_date : DateTime) :
    Option JobStats :=
  (process_users_loop schedules by_user current_date users [] []).map
    (fun acc =>
      let users_needing_reminders := acc.1
      let manager_summaries := acc.2
      -- send_user_reminder returns False only on an empty course list
      let users_emailed :=
        (users_needing_reminders.filter (fun p => !p.2.isEmpty)).length
      -- send_manager_summary returns False only on an empty summary list
      let managers_emailed :=
        (manager_summaries.filter (fun p => !p.2.isEmpty)).length
      { execution_date := current_date
        users_processed := users.length
        users_needing_reminders := users_needing_reminders.length
        reminder_emails_sent := users_emailed
        manager_summaries_sent := managers_emailed
        total_emails_sent := users_emailed + managers_emailed })

/-! ### Shared lemmas about the Evaluator -/

/-- Any status the Evaluator returns has a non-negative overdue count, and
the count is zero unless the tag is `NEEDS_REMINDER`. -/
lemma calculate_status_overdue_inv {e : CourseEnrollment} {s : CourseSchedule}
    {d : DateTime} {st : CourseScheduleStatus}
    (h : calculate_status e s d = some st) :
    0 ≤ st.days_overdue ∧
      (st.status ≠ ScheduleStatus.NEEDS_REMINDER → st.days_overdue = 0) := by
  by_cases hc : e.is_completed
  · cases hcd : e.completion_date with
    | none => simp [calculate_status, hc, hcd] at h
    | some cd =>
      simp only [calculate_status, hc, hcd, if_true] at h
      injection h with h'
      subst h'
      exact ⟨le_refl 0, fun _ => rfl⟩
  · by_cases hov : e.days_since_enrollment d > s.days_to_complete
    · simp only [calculate_status, hc, hov, Bool.false_eq_true, if_false, if_true] at h
      injection h with h'
      subst h'
      exact ⟨le_max_left 0 _, fun hne => absurd rfl hne⟩
    · by_cases hip : e.status = EnrollmentStatus.IN_PROGRESS
      · simp only [calculate_status, hc, hov, hip, Bool.false_eq_true, if_false, if_true] at h
        injection h with h'
        subst h'
        exact ⟨le_refl 0, fun _ => rfl⟩
      · by_cases hst : e.is_started
        · simp only [calculate_status, hc, hov, hip, hst, Bool.false_eq_true, if_false,
            if_true] at h
          injection h with h'
          subst h'
          exact ⟨le_refl 0, fun _ => rfl⟩
        · simp only [calculate_status, hc, hov, hip, hst, Bool.false_eq_true, if_false] at h
          injection h with h'
          subst h'
          exact ⟨le_refl 0, fun _ => rfl⟩

/-- Every member of a successful `calculate_user_status` output was produced
by `calculate_status` on some enrollment and its schedule. -/
lemma calculate_user_status_mem {schedules : List CourseSchedule}
    {enrollments : List CourseEnrollment} {d : DateTime}
    {l : List CourseScheduleStatus}
    (h : calculate_user_status schedules enrollments d = some l) :
    ∀ st ∈ l, ∃ e sch, calculate_status e sch d = some st := by
  induction enrollments generalizing l with
  | nil =>
    unfold calculate_user_status at h
    injection h with h'
    subst h'
    intro st hst
    exact absurd hst (List.not_mem_nil st)
  | cons e rest ih =>
    rw [calculate_user_status] at h
    cases hsch : schedules_map_get schedules e.course_id with
    | none =>
      rw [hsch] at h
      exact ih h
    | some sch =>
      rw [hsch] at h
      dsimp only at h
      cases hst0 : calculate_status e sch d with
      | none =>
        rw [hst0] at h
        exact absurd h (by simp)
      | some st0 =>
        rw [hst0] at h
        dsimp only at h
        rcases Option.map_eq_some'.mp h with ⟨l', hl', hcons⟩
        subst hcons
        intro st hst
        rcases List.mem_cons.mp hst with h1 | h2
        · exact ⟨e, sch, h1 ▸ hst0⟩
        · exact ih hl' st h2

/-- The Completed branch is the only failure point: when the lifecycle tag
is `COMPLETED` but the completion timestamp is absent, formatting the
message dereferences `None` and the call fails. -/
lemma calculate_status_completed_none {e : CourseEnrollment}
    {s : CourseSchedule} {d : DateTime}
    (hcs : e.status = EnrollmentStatus.COMPLETED)
    (hcd : e.completion_date = none) :
    calculate_status e s d = none := by
  have hc : e.is_completed = true := by
    simp [CourseEnrollment.is_completed, hcs]
  simp [calculate_status, hc, hcd]

/-- Under the precondition that a `COMPLETED` tag comes with a completion
timestamp, the Evaluator is total. -/
lemma calculate_status_total {e : CourseEnrollment} {s : CourseSchedule}
    {d : DateTime}
    (hpre : e.status = EnrollmentStatus.COMPLETED → e.completion_date.isSome) :
    (calculate_status e s d).isSome := by
  by_cases hc : e.is_completed
  · have hcs : e.status = EnrollmentStatus.COMPLETED := by
      simpa [CourseEnrollment.is_completed] using hc
    rcases Option.isSome_iff_exists.mp (hpre hcs) with ⟨cd, hcd⟩
    simp [calculate_status, hc, hcd]
  · by_cases hov : e.days_since_enrollment d > s.days_to_complete
    · simp [calculate_status, hc, hov]
    · by_cases hip : e.status = EnrollmentStatus.IN_PROGRESS
      · simp [calculate_status, hc, hov, hip]
      · by_cases hst : e.is_started
        · simp [calculate_status, hc, hov, hip, hst]
        · simp [calculate_status, hc, hov, hip, hst]

/-- A non-completed enrollment inside the deadline classifies as
`PROGRESSED` or `STARTED` with a zero overdue count. -/
lemma calculate_status_on_track {e : CourseEnrollment} {s : CourseSchedule}
    {d : DateTime} (h : e.is_completed = false)
    (hle : e.days_since_enrollment d ≤ s.days_to_complete) :
    ∃ st, calculate_status e s d = some st ∧
      (st.status = ScheduleStatus.PROGRESSED ∨ st.status = ScheduleStatus.STARTED) ∧
      st.days_overdue = 0 := by
  have hno : ¬ (e.days_since_enrollment d > s.days_to_complete) := not_lt.mpr hle
  by_cases hip : e.status = EnrollmentStatus.IN_PROGRESS
  · refine ⟨{ course_id := e.course_id
              status := ScheduleStatus.PROGRESSED
              enrollment := some e
              schedule := s
              days_overdue := 0
              message := "In progress - "
                ++ toString (s.days_to_complete - e.days_since_enrollment d)
                ++ " days remaining" }, ?_, Or.inl rfl, rfl⟩
    simp [calculate_status, h, hno, hip]
  · by_cases hst : e.is_started
    · refine ⟨{ course_id := e.course_id
                status := ScheduleStatus.STARTED
                enrollment := some e
                schedule := s
                days_overdue := 0
                message := "Started - "
                  ++ toString (s.days_to_complete - e.days_since_enrollment d)
                  ++ " days remaining" }, ?_, Or.inr rfl, rfl⟩
      simp [calculate_status, h, hno, hip, hst]
    · refine ⟨{ course_id := e.course_id
                status := ScheduleStatus.STARTED
                enrollment := some e
                schedule := s
                days_overdue := 0
                message := "Enrolled - "
                  ++ toString (s.days_to_complete - e.days_since_enrollment d)
                  ++ " days to start and complete" }, ?_, Or.inr rfl, rfl⟩
      simp [calculate_status, h, hno, hip, hst]

/-- A non-completed enrollment strictly past the deadline classifies as
`NEEDS_REMINDER` with overdue count `days_elapsed - days_to_complete`. -/
lemma calculate_status_overdue {e : CourseEnrollment} {s : CourseSchedule}
    {d : DateTime} (h : e.is_completed = false)
    (hgt : e.days_since_enrollment d > s.days_to_complete) :
    ∃ st, calculate_status e s d = some st ∧
      st.status = ScheduleStatus.NEEDS_REMINDER ∧
      st.days_overdue = e.days_since_enrollment d - s.days_to_complete := by
  have hmax : max 0 (e.days_since_enrollment d - s.days_to_complete)
      = e.days_since_enrollment d - s.days_to_complete :=
    max_eq_right (le_of_lt (sub_pos.mpr hgt))
  refine ⟨{ course_id := e.course_id
            status := ScheduleStatus.NEEDS_REMINDER
            enrollment := some e
            schedule := s
            days_overdue := e.days_since_enrollment d - s.days_to_complete
            message := (if !e.is_started then "Not started" else "In progress but overdue")
              ++ " - " ++ toString (e.days_since_enrollment d - s.days_to_complete)
              ++ " days overdue" }, ?_, rfl, rfl⟩
  simp [calculate_status, h, hgt, hmax]

/-! ### Claim theorems -/

/-- C1: For every enrollment with a completion timestamp set (under the
data-model invariant that a set completion timestamp implies the lifecycle
tag `Completed`) and every schedule and as-of date, `calculate_status`
classifies it as `Completed` with `days_overdue = 0` — never
`NeedsReminder` — no matter how far past the deadline the completion
timestamp or as-of date is. -/
theorem completion_precedence (e : CourseEnrollment) (s : CourseSchedule)
    (d : DateTime)
    (hinv : e.completion_date.isSome → e.status = EnrollmentStatus.COMPLETED)
    (hset : e.completion_date.isSome) :
    ∃ st, calculate_status e s d = some st ∧
      st.status = ScheduleStatus.COMPLETED ∧ st.days_overdue = 0 ∧
      st.status ≠ ScheduleStatus.NEEDS_REMINDER := by
  rcases Option.isSome_iff_exists.mp hset with ⟨cd, hcd⟩
  have hc : e.is_completed = true := by
    simp [CourseEnrollment.is_completed, hinv hset]
  refine ⟨{ course_id := e.course_id
            status := ScheduleStatus.COMPLETED
            enrollment := some e
            schedule := s
            days_overdue := 0
            message := "Completed on " ++ strftime_ymd cd }, ?_, rfl, rfl, by simp⟩
  simp [calculate_status, hc, hcd]

/-- Witness for C1: an enrollment completed on day 100, deadline 1 day,
evaluated on day 200 — far past the deadline — still classifies
`Completed` with `days_overdue = 0`. -/
theorem completion_precedence_witness :
    ((some ((100 : Int) * 86400) : Option DateTime).isSome →
      EnrollmentStatus.COMPLETED = EnrollmentStatus.COMPLETED) ∧
    (∃ st, calculate_status
        { course_id := "C1", status := EnrollmentStatus.COMPLETED,
          enrollment_date := 0, start_date := none,
          completion_date := some (100 * 86400) }
        { course_id := "C1", days_to_complete := 1, batch := 1 }
        (200 * 86400) = some st ∧
      st.status = ScheduleStatus.COMPLETED ∧ st.days_overdue = 0 ∧
      st.status ≠ ScheduleStatus.NEEDS_REMINDER) :=
  ⟨fun _ => rfl, completion_precedence _ _ _ (fun _ => rfl) rfl⟩

/-- C3: for a non-completed enrollment and schedule allowing `D` days,
evaluating exactly `D` days after enrollment is on-track (`Progressed` or
`Started`, `days_overdue = 0`), while `D + 1` days after enrollment yields
`NeedsReminder` with `days_overdue = 1`: overdue requires `days_elapsed`
strictly greater than `D`. -/
theorem deadline_boundary (e : CourseEnrollment) (s : CourseSchedule)
    (h : e.is_completed = false) :
    (∃ st, calculate_status e s
        (e.enrollment_date + s.days_to_complete * 86400) = some st ∧
      (st.status = ScheduleStatus.PROGRESSED ∨ st.status = ScheduleStatus.STARTED) ∧
      st.days_overdue = 0) ∧
    (∃ st, calculate_status e s
        (e.enrollment_date + (s.days_to_complete + 1) * 86400) = some st ∧
      st.status = ScheduleStatus.NEEDS_REMINDER ∧ st.days_overdue = 1) := by
  have h86 : (86400 : Int) ≠ 0 := by norm_num
  have hd1 : e.days_since_enrollment
      (e.enrollment_date + s.days_to_complete * 86400) = s.days_to_complete := by
    unfold CourseEnrollment.days_since_enrollment
    rw [add_sub_cancel_left, Int.mul_fdiv_cancel _ h86]
  have hd2 : e.days_since_enrollment
      (e.enrollment_date + (s.days_to_complete + 1) * 86400) = s.days_to_complete + 1 := by
    unfold CourseEnrollment.days_since_enrollment
    rw [add_sub_cancel_left, Int.mul_fdiv_cancel _ h86]
  constructor
  · exact calculate_status_on_track h (le_of_eq hd1)
  · obtain ⟨st, hst, htag, hov⟩ :=
      calculate_status_overdue h (by rw [hd2]; exact lt_add_one _)
    exact ⟨st, hst, htag, by rw [hov, hd2]; ring⟩

/-- Witness for C3: enrollment on day 0, two days to complete; day 2 is
on-track, day 3 is one day overdue. -/
theorem deadline_boundary_witness :
    (({ course_id := "C1", status := EnrollmentStatus.IN_PROGRESS,
        enrollment_date := 0, start_date := some 0,
        completion_date := none } : CourseEnrollment).is_completed = false) ∧
    ((∃ st, calculate_status
        { course_id := "C1", status := EnrollmentStatus.IN_PROGRESS,
          enrollment_date := 0, start_date := some 0, completion_date := none }
        { course_id := "C1", days_to_complete := 2, batch := 1 }
        ((0 : Int) + 2 * 86400) = some st ∧
      (st.status = ScheduleStatus.PROGRESSED ∨ st.status = ScheduleStatus.STARTED) ∧
      st.days_overdue = 0) ∧
    (∃ st, calculate_status
        { course_id := "C1", status := EnrollmentStatus.IN_PROGRESS,
          enrollment_date := 0, start_date := some 0, completion_date := none }
        { course_id := "C1", days_to_complete := 2, batch := 1 }
        ((0 : Int) + (2 + 1) * 86400) = some st ∧
      st.status = ScheduleStatus.NEEDS_REMINDER ∧ st.days_overdue = 1)) :=
  ⟨rfl, deadline_boundary _ _ rfl⟩

/-- C5: every classified status returned by `calculate_status` has
`days_overdue ≥ 0`, and `days_overdue = 0` whenever the tag is anything
other than `NeedsReminder`. -/
theorem days_overdue_invariant (e : CourseEnrollment) (s : CourseSchedule)
    (d : DateTime) (st : CourseScheduleStatus)
    (h : calculate_status e s d = some st) :
    0 ≤ st.days_overdue ∧
      (st.status ≠ ScheduleStatus.NEEDS_REMINDER → st.days_overdue = 0) :=
  calculate_status_overdue_inv h

/-- Witness for C5: a concrete overdue classification satisfies the
invariant. -/
theorem days_overdue_invariant_witness :
    (calculate_status
      { course_id := "C1", status := EnrollmentStatus.IN_PROGRESS,
        enrollment_date := 0, start_date := some 0, completion_date := none }
      { course_id := "C1", days_to_complete := 2, batch := 1 }
      (3 * 86400) = some
        { course_id := "C1", status := ScheduleStatus.NEEDS_REMINDER,
          enrollment := some
            { course_id := "C1", status := EnrollmentStatus.IN_PROGRESS,
              enrollment_date := 0, start_date := some 0, completion_date := none },
          schedule := { course_id := "C1", days_to_complete := 2, batch := 1 },
          days_overdue := 1,
          message := "In progress but overdue - 1 days overdue" }) ∧
    (0 ≤ (1 : Int) ∧
      (ScheduleStatus.NEEDS_REMINDER ≠ ScheduleStatus.NEEDS_REMINDER → (1 : Int) = 0)) := by
  have h : calculate_status
      { course_id := "C1", status := EnrollmentStatus.IN_PROGRESS,
        enrollment_date := 0, start_date := some 0, completion_date := none }
      { course_id := "C1", days_to_complete := 2, batch := 1 }
      (3 * 86400) = some
        { course_id := "C1", status := ScheduleStatus.NEEDS_REMINDER,
          enrollment := some
            { course_id := "C1", status := EnrollmentStatus.IN_PROGRESS,
              enrollment_date := 0, start_date := some 0, completion_date := none },
          schedule := { course_id := "C1", days_to_complete := 2, batch := 1 },
          days_overdue := 1,
          message := "In progress but overdue - 1 days overdue" } := by decide
  exact ⟨h, days_overdue_invariant _ _ _ _ h⟩

/-- C7: when the lifecycle tag is `Completed` but the completion timestamp
is absent, `calculate_status` fails in its Completed branch (it
dereferences the missing completion date); the branch is safe exactly
under the precondition that a `Completed` tag implies a completion
timestamp is present. -/
theorem completed_branch_safety (e : CourseEnrollment) (s : CourseSchedule)
    (d : DateTime) :
    (e.status = EnrollmentStatus.COMPLETED → e.completion_date = none →
      calculate_status e s d = none) ∧
    ((e.status = EnrollmentStatus.COMPLETED → e.completion_date.isSome) →
      (calculate_status e s d).isSome) :=
  ⟨fun hcs hcd => calculate_status_completed_none hcs hcd,
   fun hpre => calculate_status_total hpre⟩

/-- Witness for C7: a `Completed`-tagged enrollment with no completion
timestamp makes `calculate_status` fail, and a well-formed enrollment makes
it succeed. -/
theorem completed_branch_safety_witness :
    calculate_status
      { course_id := "C1", status := EnrollmentStatus.COMPLETED,
        enrollment_date := 0, start_date := none, completion_date := none }
      { course_id := "C1", days_to_complete := 2, batch := 1 } 86400 = none ∧
    (calculate_status
      { course_id := "C1", status := EnrollmentStatus.ENROLLED,
        enrollment_date := 0, start_date := none, completion_date := none }
      { course_id := "C1", days_to_complete := 2, batch := 1 } 86400).isSome :=
  ⟨(completed_branch_safety _ _ _).1 rfl rfl,
   (completed_branch_safety _ _ _).2 (fun h => by cases h)⟩

/-- C10: the Evaluator is deterministic and stateless — identical
(enrollment, schedule, as-of) inputs produce identical classified
statuses.  The embedding is a pure function of exactly these three
arguments because the source method reads nothing else (no service field,
no clock, no global). -/
theorem evaluator_deterministic (e1 e2 : CourseEnrollment)
    (s1 s2 : CourseSchedule) (d1 d2 : DateTime)
    (he : e1 = e2) (hs : s1 = s2) (hd : d1 = d2) :
    calculate_status e1 s1 d1 = calculate_status e2 s2 d2 := by
  subst he; subst hs; subst hd; rfl

/-- Witness for C10: determinism at a concrete input. -/
theorem evaluator_deterministic_witness :
    (({ course_id := "C1", status := EnrollmentStatus.ENROLLED,
        enrollment_date := 0 } : CourseEnrollment) =
      { course_id := "C1", status := EnrollmentStatus.ENROLLED,
        enrollment_date := 0 }) ∧
    calculate_status
      { course_id := "C1", status := EnrollmentStatus.ENROLLED, enrollment_date := 0 }
      { course_id := "C1", days_to_complete := 2, batch := 1 } 86400 =
    calculate_status
      { course_id := "C1", status := EnrollmentStatus.ENROLLED, enrollment_date := 0 }
      { course_id := "C1", days_to_complete := 2, batch := 1 } 86400 :=
  ⟨rfl, evaluator_deterministic _ _ _ _ _ _ rfl rfl rfl⟩

/-- C4: the Aggregator `calculate_user_status` returns exactly one classified status per
enrollment whose course id has a schedule, in input order, silently
omitting every enrollment without a matching schedule.  The hypothesis is
the data-model precondition that a `Completed`-tagged enrollment carries a
completion timestamp, under which classification never raises. -/
theorem user_status_exclusion (schedules : List CourseSchedule)
    (enrollments : List CourseEnrollment) (d : DateTime)
    (hwf : ∀ e ∈ enrollments,
      e.status = EnrollmentStatus.COMPLETED → e.completion_date.isSome) :
    ∃ l, calculate_user_status schedules enrollments d = some l ∧
      l = enrollments.filterMap (fun e =>
            (schedules_map_get schedules e.course_id).bind
              (fun sch => calculate_status e sch d)) ∧
      l.length = (enrollments.filter
            (fun e => (schedules_map_get schedules e.course_id).isSome)).length := by
  induction enrollments with
  | nil => exact ⟨[], rfl, rfl, rfl⟩
  | cons e rest ih =>
    have hwf_rest : ∀ e' ∈ rest,
        e'.status = EnrollmentStatus.COMPLETED → e'.completion_date.isSome :=
      fun e' he' => hwf e' (List.mem_cons_of_mem _ he')
    obtain ⟨l', hl', hfm, hlen⟩ := ih hwf_rest
    cases hsch : schedules_map_get schedules e.course_id with
    | none =>
      refine ⟨l', ?_, ?_, ?_⟩
      · rw [calculate_user_status, hsch]
        exact hl'
      · rw [List.filterMap_cons, hsch]
        exact hfm
      · rw [List.filter_cons]
        simp only [hsch, Option.isSome_none, Bool.false_eq_true, if_false]
        exact hlen
    | some sch =>
      have hok : (calculate_status e sch d).isSome :=
        calculate_status_total (hwf e (List.mem_cons_self _ _))
      rcases Option.isSome_iff_exists.mp hok with ⟨st, hst⟩
      refine ⟨st :: l', ?_, ?_, ?_⟩
      · rw [calculate_user_status, hsch]
        dsimp only
        rw [hst, hl']
        rfl
      · rw [List.filterMap_cons, hsch]
        simp only [Option.some_bind]
        rw [hst, hfm]
      · rw [List.filter_cons]
        simp only [hsch, Option.isSome_some, if_true, List.length_cons]
        rw [hlen]

/-- Witness for C4: two enrollments, the second referencing a course with
no schedule, classify without error into a single-element list — one
shorter than the input. -/
theorem user_status_exclusion_witness :
    (∀ e ∈ [({ course_id := "C1", status := EnrollmentStatus.IN_PROGRESS,
               enrollment_date := 0, start_date := some 0,
               completion_date := none } : CourseEnrollment),
            { course_id := "CX", status := EnrollmentStatus.ENROLLED,
              enrollment_date := 0, start_date := none, completion_date := none }],
      e.status = EnrollmentStatus.COMPLETED → e.completion_date.isSome) ∧
    (∃ l, calculate_user_status
        [{ course_id := "C1", days_to_complete := 2, batch := 1 }]
        [{ course_id := "C1", status := EnrollmentStatus.IN_PROGRESS,
           enrollment_date := 0, start_date := some 0, completion_date := none },
         { course_id := "CX", status := EnrollmentStatus.ENROLLED,
           enrollment_date := 0, start_date := none, completion_date := none }]
        86400 = some l ∧
      l = ([{ course_id := "C1", status := EnrollmentStatus.IN_PROGRESS,
              enrollment_date := 0, start_date := some 0, completion_date := none },
            { course_id := "CX", status := EnrollmentStatus.ENROLLED,
              enrollment_date := 0, start_date := none,
              completion_date := none }] : List CourseEnrollment).filterMap
            (fun e => (schedules_map_get
                [{ course_id := "C1", days_to_complete := 2, batch := 1 }]
                e.course_id).bind
              (fun sch => calculate_status e sch 86400)) ∧
      l.length = (([{ course_id := "C1", status := EnrollmentStatus.IN_PROGRESS,
                      enrollment_date := 0, start_date := some 0, completion_date := none },
                    { course_id := "CX", status := EnrollmentStatus.ENROLLED,
                      enrollment_date := 0, start_date := none,
                      completion_date := none }] : List CourseEnrollment).filter
            (fun e => (schedules_map_get
                [{ course_id := "C1", days_to_complete := 2, batch := 1 }]
                e.course_id).isSome)).length) :=
  ⟨by decide, user_status_exclusion _ _ _ (by decide)⟩

/-- The counting loop of `get_user_summary` increments `on_track` and
`in_progress` in lockstep on any list whose `Progressed`/`Started` entries
all have a zero overdue count. -/
lemma summary_fold_on_track (l : List CourseScheduleStatus) :
    ∀ acc : UserSummary,
      (∀ st ∈ l,
        (st.status = ScheduleStatus.PROGRESSED ∨ st.status = ScheduleStatus.STARTED) →
          st.days_overdue = 0) →
      acc.on_track = acc.in_progress →
      (l.foldl summary_step acc).on_track = (l.foldl summary_step acc).in_progress := by
  induction l with
  | nil => exact fun _ _ hacc => hacc
  | cons st rest ih =>
    intro acc hP hacc
    have hP' : ∀ st' ∈ rest,
        (st'.status = ScheduleStatus.PROGRESSED ∨ st'.status = ScheduleStatus.STARTED) →
          st'.days_overdue = 0 :=
      fun st' h' => hP st' (List.mem_cons_of_mem _ h')
    have hstep : (summary_step acc st).on_track = (summary_step acc st).in_progress := by
      unfold summary_step
      by_cases h1 : st.status = ScheduleStatus.COMPLETED
      · simp [h1, hacc]
      · by_cases h2 : st.status = ScheduleStatus.NEEDS_REMINDER
        · simp [h1, h2, hacc]
        · have h3 : st.status = ScheduleStatus.PROGRESSED ∨
              st.status = ScheduleStatus.STARTED := by
            cases hss : st.status <;> simp_all
          have h0 : st.days_overdue = 0 := hP st (List.mem_cons_self _ _) h3
          simp [h1, h2, h3, h0, hacc]
    exact ih (summary_step acc st) hP' hstep

/-- C6: in every summary produced by `get_user_summary`, `on_track` equals
`in_progress` — every `Progressed`/`Started` status has `days_overdue = 0`,
so both counters always move together. -/
theorem on_track_equals_in_progress (schedules : List CourseSchedule)
    (enrollments : List CourseEnrollment) (d : DateTime) (sm : UserSummary)
    (h : get_user_summary schedules enrollments d = some sm) :
    sm.on_track = sm.in_progress := by
  unfold get_user_summary at h
  rcases Option.map_eq_some'.mp h with ⟨l, hl, hsm⟩
  subst hsm
  apply summary_fold_on_track
  · intro st hst hps
    obtain ⟨e, sch, hcs⟩ := calculate_user_status_mem hl st hst
    refine (calculate_status_overdue_inv hcs).2 ?_
    rcases hps with h1 | h1 <;> simp [h1]
  · rfl

/-- Witness for C6: a concrete one-course summary has `on_track`
equal to `in_progress`. -/
theorem on_track_equals_in_progress_witness :
    (get_user_summary
      [{ course_id := "C1", days_to_complete := 2, batch := 1 }]
      [{ course_id := "C1", status := EnrollmentStatus.IN_PROGRESS,
         enrollment_date := 0, start_date := some 0, completion_date := none }]
      86400 = some
        { total_courses := 1, completed := 0, in_progress := 1,
          needs_reminder := 0, on_track := 1 }) ∧
    ({ total_courses := 1, completed := 0, in_progress := 1,
       needs_reminder := 0, on_track := 1 } : UserSummary).on_track =
      ({ total_courses := 1, completed := 0, in_progress := 1,
         needs_reminder := 0, on_track := 1 } : UserSummary).in_progress := by
  have h : get_user_summary
      [{ course_id := "C1", days_to_complete := 2, batch := 1 }]
      [{ course_id := "C1", status := EnrollmentStatus.IN_PROGRESS,
         enrollment_date := 0, start_date := some 0, completion_date := none }]
      86400 = some
        { total_courses := 1, completed := 0, in_progress := 1,
          needs_reminder := 0, on_track := 1 } := by decide
  exact ⟨h, on_track_equals_in_progress _ _ _ _ h⟩

/-- C8: the template factory maps each of the four status tags to its own
template variant and any other runtime value to the `NeedsReminder`
variant, never failing; the chosen template always carries the given
user. -/
theorem template_selection (u : User) (v : String) :
    get_template (StatusArg.tag ScheduleStatus.NEEDS_REMINDER) u =
      { kind := EmailTemplateKind.needsReminderTemplate, user := u } ∧
    get_template (StatusArg.tag ScheduleStatus.PROGRESSED) u =
      { kind := EmailTemplateKind.progressedTemplate, user := u } ∧
    get_template (StatusArg.tag ScheduleStatus.STARTED) u =
      { kind := EmailTemplateKind.startedTemplate, user := u } ∧
    get_template (StatusArg.tag ScheduleStatus.COMPLETED) u =
      { kind := EmailTemplateKind.completedTemplate, user := u } ∧
    get_template (StatusArg.other v) u =
      { kind := EmailTemplateKind.needsReminderTemplate, user := u } := by
  refine ⟨rfl, rfl, rfl, rfl, ?_⟩
  simp [get_template, template_map, List.find?]

/-- C9: persisting the notification log appends: every record already in
the durable log is preserved in place and the records of the run follow it. -/
theorem save_email_log_append_semantics (existing sent : List EmailRecord) :
    save_email_log (some existing) sent = existing ++ sent := rfl

/-- C2 (refuting evidence): the per-user loop of `process_reminders` has no
exception isolation.  With two users, where only the data of the first user
makes classification raise (a `Completed`-tagged enrollment with no
completion timestamp), the whole run aborts (`none`): the second user is
never processed and no statistics are returned, although the same run with
the second user alone succeeds and reports full statistics. -/
theorem per_user_failure_aborts_batch :
    process_reminders
      [{ user_id := "U1", name := "Alice", email := "alice@x.com",
         manager_email := "mgr@x.com", hire_date := 0 },
       { user_id := "U2", name := "Bob", email := "bob@x.com",
         manager_email := "mgr@x.com", hire_date := 0 }]
      [("U1", [{ course_id := "C1", status := EnrollmentStatus.COMPLETED,
                 enrollment_date := 0, start_date := none, completion_date := none }]),
       ("U2", [{ course_id := "C1", status := EnrollmentStatus.IN_PROGRESS,
                 enrollment_date := 0, start_date := some 0, completion_date := none }])]
      [{ course_id := "C1", days_to_complete := 2, batch := 1 }]
      (3 * 86400) = none ∧
    process_reminders
      [{ user_id := "U2", name := "Bob", email := "bob@x.com",
         manager_email := "mgr@x.com", hire_date := 0 }]
      [("U1", [{ course_id := "C1", status := EnrollmentStatus.COMPLETED,
                 enrollment_date := 0, start_date := none, completion_date := none }]),
       ("U2", [{ course_id := "C1", status := EnrollmentStatus.IN_PROGRESS,
                 enrollment_date := 0, start_date := some 0, completion_date := none }])]
      [{ course_id := "C1", days_to_complete := 2, batch := 1 }]
      (3 * 86400) = some
        { execution_date := 3 * 86400, users_processed := 1,
          users_needing_reminders := 1, reminder_emails_sent := 1,
          manager_summaries_sent := 1, total_emails_sent := 2 } := by
  exact ⟨by decide, by decide⟩

end LearnTrack
